import Mathlib

/-!
Verification of the maomao-security-bot mode/alarm state machine and the
websocket command/broadcast layer.

The definitions below are a shallow embedding of the Python sources:
* `src/backend/modes/mode_manager.py` (class `ModeManager`),
* `src/backend/communication/websocket_server.py` (class `WebSocketServer`),
* `src/backend/core/robot_controller.py` (method `handle_command`, used only
  to justify that the forwarded command handler always returns a result
  dictionary or raises).

Modelling conventions:
* timestamps (`time.time()`) are explicit `Int` parameters `now` (seconds);
  the Python code reads the wall clock inside the methods, so each embedded
  operation takes the clock value as an argument;
* the `vision_data` dictionary is embedded as a typed `Observation` record;
  fields read with `dict.get(key, default)` become `Option` fields consumed
  with `getD` and the same default;
* floats (`face_x`, `face_y`, `confidence`) are modelled as `Rat`;
* calls into the servo / movement / sound collaborators become `Intent`
  values in the returned intent list (in call order);
* `websocket_server.broadcast_status(message)` calls become `TelemetryEvent`
  values; the production configuration (see `RobotController.start`) always
  attaches the websocket server, so the `if self.websocket_server` guard is
  taken to be true;
* `random.choice(directions)` in patrol mode is modelled by threading the
  drawn direction as an explicit `Dir` argument;
* Python `set` registries of websocket clients are modelled as duplicate-free
  in spirit `List Nat` (client handles), with `add`/`discard` mirroring the
  set operations.
-/

namespace Maomao

/-- `RobotMode` enum of `mode_manager.py`. -/
inductive RobotMode
  | MANUAL
  | PATROL
  | SURVEILLANCE
deriving DecidableEq

/-- The surveillance alarm sub-state, as described by the spec's `AlarmState`.
In the code it is carried by the two mutually exclusive boolean flags
`surveillance_yellow_warning` and `surveillance_intruder_detected`. -/
inductive AlarmState
  | IDLE
  | YELLOW_WARNING
  | RED_ALARM
deriving DecidableEq

/-- Direction drawn by `random.choice(["forward","backward","left","right"])`
in `_update_patrol_mode`; the draw is threaded as an explicit input. -/
inductive Dir
  | forward
  | backward
  | left
  | right
deriving DecidableEq

/-- The `vision_data` dictionary consumed by `ModeManager.update`, typed as
the observation record the vision system produces.  Fields that the code
reads with `vision_data.get(key, default)` are `Option`s. -/
structure Observation where
  face_detected : Bool
  recognized_person : Option String
  confidence : Option Rat
  face_x : Option Rat
  face_y : Option Rat
deriving DecidableEq

/-- Calls from `ModeManager` into the servo / movement collaborators,
recorded instead of executed. -/
inductive Intent
  | followFace (x y : Rat)
  | setEyeColor (color : String)
  | playHappySound
  | playIntruderSound
  | raiseArms
  | lowerArms
  | activateLaser
  | deactivateLaser
  | stopAllMotion
  | move (d : Dir)
  | stopNaturalBlinking
  | stopArmSwinging
  | stopLedBlinking
  | stopEyelidBlinking
deriving DecidableEq

/-- The `recognition_result` messages `ModeManager` broadcasts through the
websocket server, one constructor per broadcast site in the source:
* `recognizedSafe`: trusted person recognized (countdown 30, green);
* `unknownPersonWarning`: unknown person detected (countdown 5, yellow);
* `intruderAlarm`: escalation to the red alarm (countdown 10, red);
* `alarmCountdown`: one countdown tick (red);
* `noFaceAllClear`: no face and alarm not active (countdown 0, green);
* `alarmCleared`: emitted by `clear_alarm`. -/
inductive TelemetryEvent
  | recognizedSafe (person : String) (confidence : Rat)
  | unknownPersonWarning (confidence : Rat)
  | intruderAlarm (confidence : Rat) (countdown : Int)
  | alarmCountdown (confidence : Rat) (countdown : Int)
  | noFaceAllClear
  | alarmCleared
deriving DecidableEq

/-- The mutable fields of `ModeManager` that the mode/alarm logic reads or
writes (logging and the sound-manager handle are omitted, as are the
`last_thinking_sound_time` fields that only appear inside docstrings). -/
structure ModeManager where
  current_mode : Option RobotMode
  mode_start_time : Int
  patrol_last_move_time : Int
  patrol_active : Bool
  surveillance_countdown : Int
  surveillance_intruder_detected : Bool
  surveillance_yellow_warning : Bool
  surveillance_yellow_start_time : Int
  detection_pause_until : Int
  alarm_active : Bool
  face_tracking_enabled : Bool
deriving DecidableEq

/-- `ModeManager.__init__` field values (time-valued fields start at 0). -/
def initial_state : ModeManager :=
  { current_mode := none
    mode_start_time := 0
    patrol_last_move_time := 0
    patrol_active := false
    surveillance_countdown := 0
    surveillance_intruder_detected := false
    surveillance_yellow_warning := false
    surveillance_yellow_start_time := 0
    detection_pause_until := 0
    alarm_active := false
    face_tracking_enabled := true }

/-- The alarm sub-state carried by the two flags (they are never both set on
reachable states: `surveillance_yellow_warning` is only set when the intruder
flag is clear, and escalation clears the yellow flag when setting it). -/
def alarmState (s : ModeManager) : AlarmState :=
  if s.surveillance_intruder_detected then AlarmState.RED_ALARM
  else if s.surveillance_yellow_warning then AlarmState.YELLOW_WARNING
  else AlarmState.IDLE

/-- Boolean test that `needle` is a prefix of `hay` (on character lists). -/
def isPrefixB : List Char → List Char → Bool
  | [], _ => true
  | _ :: _, [] => false
  | a :: as, b :: bs => a == b && isPrefixB as bs

/-- Boolean substring test on character lists: some suffix of `hay` starts
with `needle`. -/
def hasSubList (needle : List Char) : List Char → Bool
  | [] => isPrefixB needle []
  | hay@(_ :: rest) => isPrefixB needle hay || hasSubList needle rest

/-- Python's `needle in hay` on strings. -/
def pyIn (needle hay : String) : Bool :=
  hasSubList needle.data hay.data

/-- Python's `str.lower()` (ASCII case folding, as `Char.toLower`). -/
def pyLower (s : String) : String :=
  String.mk (s.data.map Char.toLower)

/-- The trusted-person test of `_update_surveillance_mode`:
`recognized_person and "sonia" in recognized_person.lower()`
(a missing or empty name is falsy). -/
def isTrusted : Option String → Bool
  | none => false
  | some p => !(p == "") && pyIn "sonia" (pyLower p)

/-- Result of one state-machine operation: the new state, the actuator
intents requested (in call order), and the broadcast events emitted. -/
abbrev StepResult : Type := ModeManager × List Intent × List TelemetryEvent

/-- `ModeManager._update_surveillance_mode(vision_data)` at clock `now`. -/
def update_surveillance (s : ModeManager) (v : Observation) (now : Int) : StepResult :=
  let face_detected := v.face_detected
  let recognized_person := v.recognized_person
  let confidence := v.confidence.getD 0
  -- face tracking happens first and is itself gated on the pause window
  let trackIntents : List Intent :=
    if s.face_tracking_enabled && face_detected
        && decide (s.detection_pause_until ≤ now) then
      [Intent.followFace (v.face_x.getD (1/2)) (v.face_y.getD (1/2))]
    else []
  if now < s.detection_pause_until then
    -- detection paused: log only, no state change
    (s, trackIntents, [])
  else if face_detected && isTrusted recognized_person then
    ({ s with
        surveillance_yellow_warning := false
        surveillance_intruder_detected := false
        alarm_active := false
        surveillance_countdown := 0
        detection_pause_until := now + 30 },
     trackIntents ++
       [Intent.setEyeColor "green", Intent.playHappySound,
        Intent.lowerArms, Intent.deactivateLaser],
     [TelemetryEvent.recognizedSafe (recognized_person.getD "") confidence])
  else if face_detected && !(isTrusted recognized_person) then
    if !s.surveillance_yellow_warning && !s.surveillance_intruder_detected then
      ({ s with
          surveillance_yellow_warning := true
          surveillance_yellow_start_time := now },
       trackIntents ++ [Intent.setEyeColor "yellow"],
       [TelemetryEvent.unknownPersonWarning confidence])
    else if s.surveillance_yellow_warning && !s.surveillance_intruder_detected
        && decide (5 ≤ now - s.surveillance_yellow_start_time) then
      ({ s with
          surveillance_countdown := 10
          surveillance_yellow_warning := false
          surveillance_intruder_detected := true
          alarm_active := true },
       trackIntents ++
         [Intent.setEyeColor "red", Intent.raiseArms,
          Intent.activateLaser, Intent.playIntruderSound],
       [TelemetryEvent.intruderAlarm confidence 10])
    else if 0 < s.surveillance_countdown then
      ({ s with surveillance_countdown := s.surveillance_countdown - 1 },
       trackIntents,
       [TelemetryEvent.alarmCountdown confidence (s.surveillance_countdown - 1)])
    else
      (s, trackIntents, [])
  else if !face_detected && s.surveillance_intruder_detected then
    if !s.alarm_active then
      ({ s with
          surveillance_intruder_detected := false
          surveillance_countdown := 0 },
       trackIntents ++
         [Intent.setEyeColor "green", Intent.playHappySound,
          Intent.lowerArms, Intent.deactivateLaser],
       [TelemetryEvent.noFaceAllClear])
    else
      (s, trackIntents, [])
  else
    (s, trackIntents, [])

/-- `ModeManager._update_patrol_mode(vision_data)` at clock `now`, with the
random direction draw threaded as `dir` (the observation is unused: the
face/sound snippet in the source sits inside the docstring). -/
def update_patrol (s : ModeManager) (_v : Observation) (now : Int) (dir : Dir) : StepResult :=
  if !s.patrol_active then (s, [], [])
  else if 5 < now - s.patrol_last_move_time then
    ({ s with patrol_last_move_time := now },
     [Intent.move dir, Intent.stopAllMotion], [])
  else (s, [], [])

/-- `ModeManager.update(vision_data)` at clock `now` (manual mode and the
no-mode case do nothing). -/
def update (s : ModeManager) (v : Observation) (now : Int) (dir : Dir) : StepResult :=
  match s.current_mode with
  | none => (s, [], [])
  | some RobotMode.MANUAL => (s, [], [])
  | some RobotMode.PATROL => update_patrol s v now dir
  | some RobotMode.SURVEILLANCE => update_surveillance s v now

/-- The intents requested by `_enter_mode(PATROL)`. -/
def patrolEntryIntents : List Intent :=
  [Intent.stopNaturalBlinking, Intent.stopLedBlinking,
   Intent.stopEyelidBlinking, Intent.setEyeColor "yellow"]

/-- `ModeManager._enter_mode(mode)` at clock `now`. -/
def enter_mode (s : ModeManager) (m : RobotMode) (now : Int) :
    ModeManager × List Intent :=
  match m with
  | RobotMode.MANUAL =>
      (s, [Intent.stopNaturalBlinking, Intent.stopArmSwinging])
  | RobotMode.PATROL =>
      ({ s with patrol_last_move_time := now }, patrolEntryIntents)
  | RobotMode.SURVEILLANCE =>
      ({ s with face_tracking_enabled := true }, [])

/-- `ModeManager._exit_mode(mode)`: always stops all motion first. -/
def exit_mode (s : ModeManager) (m : RobotMode) : ModeManager × List Intent :=
  match m with
  | RobotMode.MANUAL =>
      (s, [Intent.stopAllMotion, Intent.stopNaturalBlinking, Intent.stopArmSwinging])
  | RobotMode.PATROL =>
      (s, [Intent.stopAllMotion])
  | RobotMode.SURVEILLANCE =>
      ({ s with face_tracking_enabled := false }, [Intent.stopAllMotion])

/-- `ModeManager.set_mode(mode)` at clock `now`: no-op when already in the
mode, otherwise exit the old mode (if any), switch, and enter the new one. -/
def set_mode (s : ModeManager) (m : RobotMode) (now : Int) :
    ModeManager × List Intent :=
  if s.current_mode = some m then (s, [])
  else
    let ex :=
      match s.current_mode with
      | some old => exit_mode s old
      | none => (s, [])
    let s2 := { ex.1 with current_mode := some m, mode_start_time := now }
    let en := enter_mode s2 m now
    (en.1, ex.2 ++ en.2)

/-- `ModeManager.clear_alarm()`. -/
def clear_alarm (s : ModeManager) : StepResult :=
  ({ s with
      alarm_active := false
      surveillance_intruder_detected := false
      surveillance_countdown := 0 },
   [Intent.setEyeColor "green", Intent.lowerArms, Intent.deactivateLaser],
   [TelemetryEvent.alarmCleared])

/-- `ModeManager.set_patrol_active(active)` at clock `now`. -/
def set_patrol_active (s : ModeManager) (active : Bool) (now : Int) :
    ModeManager × List Intent :=
  let s1 := { s with patrol_active := active }
  if active = true ∧ s1.current_mode ≠ some RobotMode.PATROL then
    set_mode s1 RobotMode.PATROL now
  else (s1, [])

/-- Run a list of `(observation, clock)` ticks through `update`, keeping the
state (the patrol direction draw is irrelevant in surveillance mode and is
fixed to `Dir.forward`). -/
def run_surveillance (s : ModeManager) : List (Observation × Int) → ModeManager
  | [] => s
  | (v, t) :: rest => run_surveillance (update s v t Dir.forward).1 rest

/-- Events emitted along a run of `(observation, clock)` ticks. -/
def run_events (s : ModeManager) : List (Observation × Int) → List TelemetryEvent
  | [] => []
  | (v, t) :: rest =>
      (update s v t Dir.forward).2.2 ++ run_events (update s v t Dir.forward).1 rest

/-- An unknown (non-trusted) face observation. -/
def unknownFaceObs : Observation :=
  { face_detected := true
    recognized_person := some "stranger"
    confidence := some (9/10)
    face_x := some (1/2)
    face_y := some (1/2) }

/-- A no-face observation. -/
def noFaceObs : Observation :=
  { face_detected := false
    recognized_person := none
    confidence := some 0
    face_x := none
    face_y := none }

/-- The all-default / zeroed observation (`dict.get` defaults everywhere). -/
def zeroObs : Observation :=
  { face_detected := false
    recognized_person := none
    confidence := none
    face_x := none
    face_y := none }

/-- A trusted-person observation. -/
def soniaObs : Observation :=
  { face_detected := true
    recognized_person := some "Sonia"
    confidence := some (19/20)
    face_x := some (1/2)
    face_y := some (1/2) }

/-- Unknown-face ticks at the given clock values. -/
def facesTrace (ts : List Int) : List (Observation × Int) :=
  ts.map fun t => (unknownFaceObs, t)

/-- No-face ticks at the given clock values. -/
def noFaceTrace (ts : List Int) : List (Observation × Int) :=
  ts.map fun t => (noFaceObs, t)

/-- State after entering surveillance mode at clock 0. -/
def surv0 : ModeManager := (set_mode initial_state RobotMode.SURVEILLANCE 0).1

/-- A reachable yellow-warning state: one unknown face at t = 0. -/
def yellowS : ModeManager := run_surveillance surv0 [(unknownFaceObs, 0)]

/-- A reachable red-alarm state: unknown faces at t = 0..5 (escalation at
t = 5 with countdown 10 and the active flag set). -/
def redS : ModeManager := run_surveillance surv0 (facesTrace [0, 1, 2, 3, 4, 5])

example : alarmState yellowS = AlarmState.YELLOW_WARNING := by decide
example : alarmState redS = AlarmState.RED_ALARM := by decide
example : redS.surveillance_countdown = 10 ∧ redS.alarm_active = true := by decide

/-! ### WebSocket layer (`websocket_server.py`) -/

/-- An inbound client message after JSON parsing: the `type` string and the
optional `id` (`data.get("id", "unknown")` supplies the default). -/
structure InboundMsg where
  type : String
  id : Option String
deriving DecidableEq

/-- The dictionary `RobotController.handle_command` returns: every branch of
that method returns `{"success": ..., "message": ...}` (possibly with extra
fields we do not need), or raises. -/
structure CommandResult where
  success : Bool
  message : String
deriving DecidableEq

/-- Outbound messages `_handle_command` / `_send_status` send to the
originating client, each carrying the `id` field the code attaches. -/
inductive OutboundMsg
  | pong (id : String)
  | statusUpdate (id : String)
  | commandResponse (success : Bool) (message : String) (id : String)
  | handlerResult (r : CommandResult) (id : String)
  | errorReply (message : String) (id : String)
deriving DecidableEq

/-- The `id` field of an outbound message. -/
def outId : OutboundMsg → String
  | OutboundMsg.pong i => i
  | OutboundMsg.statusUpdate i => i
  | OutboundMsg.commandResponse _ _ i => i
  | OutboundMsg.handlerResult _ i => i
  | OutboundMsg.errorReply _ i => i

/-- The id `_send_status` generates: `f"status_{int(time.time() * 1000)}"`
(`nowMs` is the millisecond clock value). -/
def statusMsgId (nowMs : Int) : String :=
  "status_" ++ toString nowMs

/-- Python `set.discard` on a client list. -/
def discardClient (c : Nat) (l : List Nat) : List Nat :=
  l.filter fun x => x ≠ c

/-- Python `set.add` on a client list. -/
def addClient (c : Nat) (l : List Nat) : List Nat :=
  if c ∈ l then l else l ++ [c]

/-- `WebSocketServer._handle_command(websocket, data)`: the control-plane
types are answered directly, everything else is forwarded to the command
handler (`handler` is what `self.command_handler(data)` does: return a result
dictionary, or raise with a message).  Returns the updated video-client set
and the replies sent to the originating client. -/
def handle_command (video : List Nat) (client : Nat) (msg : InboundMsg)
    (nowMs : Int) (handler : Except String CommandResult) :
    List Nat × List OutboundMsg :=
  let command_id := msg.id.getD "unknown"
  if msg.type = "ping" then
    (video, [OutboundMsg.pong command_id])
  else if msg.type = "get_status" then
    -- `_send_status` builds its own fresh id, it does not echo `command_id`
    (video, [OutboundMsg.statusUpdate (statusMsgId nowMs)])
  else if msg.type = "start_video_stream" then
    (addClient client video,
     [OutboundMsg.commandResponse true "Video streaming started" command_id])
  else if msg.type = "stop_video_stream" then
    (discardClient client video,
     [OutboundMsg.commandResponse true "Video streaming stopped" command_id])
  else
    match handler with
    | Except.ok r => (video, [OutboundMsg.handlerResult r command_id])
    | Except.error e =>
        (video, [OutboundMsg.errorReply ("Error: " ++ e) command_id])

/-- Outcome of `await client.send(message)` for one client. -/
inductive SendResult
  | ok
  | connectionClosed
  | otherError
deriving DecidableEq

/-- The two client registries of `WebSocketServer`. -/
structure ServerState where
  clients : List Nat
  video_clients : List Nat
deriving DecidableEq

/-- `WebSocketServer._send_to_client`: on a `ConnectionClosed` error the
client is discarded from both registries; any other send error is only
logged.  Returns the updated registries and whether the send succeeded. -/
def send_to_client (st : ServerState) (c : Nat) (outcome : Nat → SendResult) :
    ServerState × Bool :=
  match outcome c with
  | SendResult.ok => (st, true)
  | SendResult.connectionClosed =>
      ({ clients := discardClient c st.clients
         video_clients := discardClient c st.video_clients }, false)
  | SendResult.otherError => (st, false)

/-- `WebSocketServer._is_connection_closed`: the probe creates a ping future
and immediately cancels it; it only returns `True` if creating the future
itself raises, which does not happen for a live connection object — so it is
constantly `false`. -/
def is_connection_closed (_c : Nat) : Bool := false

/-- `WebSocketServer._broadcast(message, clients)`: one send task per
snapshot client (the concurrent `gather` is linearised in snapshot order;
the registry discards performed by the individual sends commute).  Returns
the final registries and the list of clients that received the message. -/
def broadcast (st : ServerState) (snapshot : List Nat)
    (outcome : Nat → SendResult) : ServerState × List Nat :=
  match snapshot with
  | [] => (st, [])
  | c :: rest =>
      if is_connection_closed c then broadcast st rest outcome
      else
        let sent := send_to_client st c outcome
        let restR := broadcast sent.1 rest outcome
        (restR.1, (if sent.2 then [c] else []) ++ restR.2)

/-- `WebSocketServer.broadcast_status`: snapshot the status-client registry
under the lock, then send to each snapshot member. -/
def broadcast_status (st : ServerState) (outcome : Nat → SendResult) :
    ServerState × List Nat :=
  broadcast st st.clients outcome

/-! ### Helper lemmas (shared) -/

theorem update_surv_eq {s : ModeManager} (v : Observation) (now : Int) (dir : Dir)
    (hm : s.current_mode = some RobotMode.SURVEILLANCE) :
    update s v now dir = update_surveillance s v now := by
  simp [update, hm]

theorem update_surv_noface {s : ModeManager} (v : Observation) (now : Int) (dir : Dir)
    (hm : s.current_mode = some RobotMode.SURVEILLANCE)
    (hf : v.face_detected = false)
    (hkeep : s.surveillance_intruder_detected = false ∨ s.alarm_active = true) :
    update s v now dir = (s, [], []) := by
  rw [update_surv_eq v now dir hm]
  unfold update_surveillance
  by_cases hlt : now < s.detection_pause_until
  · have h1 : ¬ s.detection_pause_until ≤ now := not_le.mpr hlt
    simp [hf, hlt, decide_eq_false h1]
  · have h1 : s.detection_pause_until ≤ now := not_lt.mp hlt
    rcases hkeep with hk | hk <;> simp [hf, hlt, hk, decide_eq_true h1]

theorem update_surv_trusted {s : ModeManager} (v : Observation) (now : Int) (dir : Dir)
    (hm : s.current_mode = some RobotMode.SURVEILLANCE)
    (hp : s.detection_pause_until ≤ now)
    (hf : v.face_detected = true)
    (ht : isTrusted v.recognized_person = true) :
    (update s v now dir).1 =
      { s with
          surveillance_yellow_warning := false
          surveillance_intruder_detected := false
          alarm_active := false
          surveillance_countdown := 0
          detection_pause_until := now + 30 } := by
  rw [update_surv_eq v now dir hm]
  unfold update_surveillance
  have h1 : ¬ now < s.detection_pause_until := not_lt.mpr hp
  simp [hf, ht, h1]

theorem isTrusted_of_lower {name : String} (h : pyLower name = "sonia") :
    isTrusted (some name) = true := by
  have hne : (name == "") = false := by
    rcases hb : (name == "") with _ | _
    · rfl
    · exfalso
      have : name = "" := by exact eq_of_beq hb
      rw [this] at h
      exact absurd h (by decide)
  simp [isTrusted, hne, h]
  decide

/-- A reachable paused state: trusted recognition at t = 0 sets
`detection_pause_until = 30`. -/
def pausedS : ModeManager := run_surveillance surv0 [(soniaObs, 0)]

/-! ### Claim theorems -/

/-- C3: in SURVEILLANCE mode with detection not paused, an observation with a
face whose recognized identity matches the trusted name case-insensitively
resets the alarm sub-state to IDLE, clears the active flag, clears the
countdown, and sets the detection pause window to `now + 30` — for every
prior alarm sub-state (the state `s` is arbitrary). -/
theorem C3_trusted_recognition_resets (s : ModeManager) (v : Observation)
    (now : Int) (dir : Dir) (name : String)
    (hm : s.current_mode = some RobotMode.SURVEILLANCE)
    (hp : s.detection_pause_until ≤ now)
    (hf : v.face_detected = true)
    (hname : v.recognized_person = some name)
    (hmatch : pyLower name = "sonia") :
    alarmState (update s v now dir).1 = AlarmState.IDLE ∧
    (update s v now dir).1.alarm_active = false ∧
    (update s v now dir).1.surveillance_countdown = 0 ∧
    (update s v now dir).1.detection_pause_until = now + 30 := by
  have ht : isTrusted v.recognized_person = true := by
    rw [hname]
    exact isTrusted_of_lower hmatch
  rw [update_surv_trusted v now dir hm hp hf ht]
  simp [alarmState]

/-- Witness for C3: trusted recognition at `t = 6` from the reachable
mid-countdown red-alarm state `redS`. -/
theorem C3_witness :
    alarmState (update redS soniaObs 6 Dir.forward).1 = AlarmState.IDLE ∧
    (update redS soniaObs 6 Dir.forward).1.alarm_active = false ∧
    (update redS soniaObs 6 Dir.forward).1.surveillance_countdown = 0 ∧
    (update redS soniaObs 6 Dir.forward).1.detection_pause_until = 6 + 30 :=
  C3_trusted_recognition_resets redS soniaObs 6 Dir.forward "Sonia"
    (by decide) (by decide) (by decide) rfl (by decide)

/-- C4: while `now < detection_pause_until`, an update in SURVEILLANCE mode
is a complete no-op: the state (all alarm fields included) is unchanged, no
actuator intent is requested, and no event is emitted, for every
observation. -/
theorem C4_pause_window_noop (s : ModeManager) (v : Observation) (now : Int)
    (dir : Dir)
    (hm : s.current_mode = some RobotMode.SURVEILLANCE)
    (hp : now < s.detection_pause_until) :
    update s v now dir = (s, [], []) := by
  rw [update_surv_eq v now dir hm]
  unfold update_surveillance
  have h1 : ¬ s.detection_pause_until ≤ now := not_le.mpr hp
  simp [hp, decide_eq_false h1]

/-- Witness for C4: an unknown face fed at `t = 10` inside the reachable
pause window of `pausedS` (which pauses detection until `t = 30`). -/
theorem C4_witness :
    update pausedS unknownFaceObs 10 Dir.forward = (pausedS, [], []) :=
  C4_pause_window_noop pausedS unknownFaceObs 10 Dir.forward
    (by decide) (by decide)

/-- C5 counterexample: in the reachable yellow-warning state `yellowS`,
`clear_alarm` does not reset the alarm sub-state to IDLE — the yellow flag
survives, so the sub-state is still YELLOW_WARNING. -/
theorem C5_counterexample :
    alarmState yellowS = AlarmState.YELLOW_WARNING ∧
    alarmState (clear_alarm yellowS).1 = AlarmState.YELLOW_WARNING ∧
    alarmState (clear_alarm yellowS).1 ≠ AlarmState.IDLE := by
  decide

/-- C5 (amended): `clear_alarm`, called in any state, never errors and
unconditionally clears the intruder flag, the active flag, and the countdown
— so whenever the yellow-warning flag is clear the sub-state becomes IDLE —
but it leaves the yellow-warning flag unchanged; it is idempotent: a second
call yields the same final state (and the same intents and events). -/
theorem C5_clear_alarm_amended (s : ModeManager) :
    (clear_alarm s).1.alarm_active = false ∧
    (clear_alarm s).1.surveillance_intruder_detected = false ∧
    (clear_alarm s).1.surveillance_countdown = 0 ∧
    (clear_alarm s).1.surveillance_yellow_warning = s.surveillance_yellow_warning ∧
    (s.surveillance_yellow_warning = false →
      alarmState (clear_alarm s).1 = AlarmState.IDLE) ∧
    clear_alarm (clear_alarm s).1 = clear_alarm s := by
  refine ⟨rfl, rfl, rfl, rfl, ?_, rfl⟩
  intro hy
  simp [clear_alarm, alarmState, hy]

/-- Witness for C5's amended theorem at the reachable red-alarm state
`redS` (whose yellow flag is clear). -/
theorem C5_witness :
    (clear_alarm redS).1.alarm_active = false ∧
    alarmState (clear_alarm redS).1 = AlarmState.IDLE ∧
    clear_alarm (clear_alarm redS).1 = clear_alarm redS :=
  ⟨(C5_clear_alarm_amended redS).1,
   (C5_clear_alarm_amended redS).2.2.2.2.1 (by decide),
   (C5_clear_alarm_amended redS).2.2.2.2.2⟩

/-- C9: `update` is a total function of the typed observation (the machine
never fails), and every observation with `face_detected = false` — in
particular the all-default / zeroed observation `zeroObs` — is processed
exactly like a "no face detected" observation in every mode: the result is
identical to updating with `zeroObs`. -/
theorem C9_zero_observation_no_face (s : ModeManager) (v : Observation)
    (now : Int) (dir : Dir) (hf : v.face_detected = false) :
    update s v now dir = update s zeroObs now dir := by
  unfold update
  cases hc : s.current_mode with
  | none => rfl
  | some m =>
      cases m with
      | MANUAL => rfl
      | PATROL => rfl
      | SURVEILLANCE =>
          unfold update_surveillance
          simp [hf, zeroObs]

/-- Witness for C9: a concrete no-face observation at the red-alarm state is
processed exactly like the zeroed observation. -/
theorem C9_witness :
    update redS noFaceObs 9 Dir.forward = update redS zeroObs 9 Dir.forward :=
  C9_zero_observation_no_face redS noFaceObs 9 Dir.forward (by decide)

/-- Interrupted-presence trace: one unknown face at t = 0, no face at
t = 1..4, unknown face again at t = 5. -/
def c1_trace : List (Observation × Int) :=
  [(unknownFaceObs, 0), (noFaceObs, 1), (noFaceObs, 2),
   (noFaceObs, 3), (noFaceObs, 4), (unknownFaceObs, 5)]

/-- C1 counterexample: face presence is interrupted (unknown face only at
t = 0 and t = 5, no face at t = 1..4), yet the t = 5 tick escalates straight
to RED_ALARM — there has been only one second of continuous non-trusted face
presence, so "escalation happens only after 5 or more seconds of continuous
non-trusted face presence" is false: the yellow window timer keeps running
from `warningStartedAt` and interruptions do not restart it. -/
theorem C1_counterexample :
    alarmState (run_surveillance surv0 (c1_trace.take 5)) = AlarmState.YELLOW_WARNING ∧
    alarmState (run_surveillance surv0 c1_trace) = AlarmState.RED_ALARM := by
  decide

/-- C1 (amended): in SURVEILLANCE mode with detection not paused, in the
YELLOW_WARNING sub-state, a non-trusted-face update escalates to RED_ALARM
exactly when at least 5 seconds have elapsed since `warningStartedAt`; the
scenario (non-trusted faces at t = 0..4 stay YELLOW_WARNING, t = 5 escalates)
holds; however, a no-face tick leaves the yellow state (its start time
included) completely unchanged — interruptions in face presence do not
restart the 5-second window, which is measured from the original
`warningStartedAt`. -/
theorem C1_escalation_amended (s : ModeManager) (v : Observation) (now : Int)
    (dir : Dir)
    (hm : s.current_mode = some RobotMode.SURVEILLANCE)
    (hp : s.detection_pause_until ≤ now)
    (hy : s.surveillance_yellow_warning = true)
    (hi : s.surveillance_intruder_detected = false)
    (hf : v.face_detected = true)
    (ht : isTrusted v.recognized_person = false) :
    (alarmState (update s v now dir).1 = AlarmState.RED_ALARM ↔
      5 ≤ now - s.surveillance_yellow_start_time) ∧
    (∀ (w : Observation) (t : Int) (d : Dir), w.face_detected = false →
      (update s w t d).1 = s) ∧
    alarmState (run_surveillance surv0 (facesTrace [0, 1, 2, 3, 4])) =
      AlarmState.YELLOW_WARNING ∧
    alarmState (run_surveillance surv0 (facesTrace [0, 1, 2, 3, 4, 5])) =
      AlarmState.RED_ALARM := by
  refine ⟨?_, ?_, by decide, by decide⟩
  · rw [update_surv_eq v now dir hm]
    unfold update_surveillance
    have h1 : ¬ now < s.detection_pause_until := not_lt.mpr hp
    by_cases h5 : 5 ≤ now - s.surveillance_yellow_start_time
    · simp [hf, ht, hy, hi, h1, decide_eq_true h5, alarmState, h5]
    · by_cases hc : 0 < s.surveillance_countdown
      · simp [hf, ht, hy, hi, h1, decide_eq_false h5, hc, alarmState, h5]
      · simp [hf, ht, hy, hi, h1, decide_eq_false h5, hc, alarmState, h5]
  · intro w t d hw
    rw [update_surv_noface w t d hm hw (Or.inl hi)]

/-- Witness for C1's amended theorem at the reachable yellow state
`yellowS` (warning started at t = 0). -/
theorem C1_witness :
    (alarmState (update yellowS unknownFaceObs 7 Dir.forward).1 = AlarmState.RED_ALARM ↔
      5 ≤ (7 : Int) - yellowS.surveillance_yellow_start_time) ∧
    (update yellowS noFaceObs 2 Dir.backward).1 = yellowS :=
  ⟨(C1_escalation_amended yellowS unknownFaceObs 7 Dir.forward
      (by decide) (by decide) (by decide) (by decide) (by decide) (by decide)).1,
   (C1_escalation_amended yellowS unknownFaceObs 7 Dir.forward
      (by decide) (by decide) (by decide) (by decide) (by decide) (by decide)).2.1
     noFaceObs 2 Dir.backward (by decide)⟩

/-- C2 counterexample: in the reachable red-alarm state `redS`
(countdown = 10 > 0), a no-face tick does not decrement the countdown and
emits no countdown event — the update is a complete no-op — contradicting
"each subsequent update tick with countdown > 0 decrements countdown by
exactly 1 and emits a countdown event". -/
theorem C2_counterexample :
    0 < redS.surveillance_countdown ∧
    update redS noFaceObs 6 Dir.forward = (redS, [], []) := by
  decide

/-- C2 (amended): after escalation, each update tick that observes a
non-trusted face while countdown > 0 decrements the countdown by exactly 1
and emits a countdown event (no-face ticks leave the countdown unchanged);
in the scenario with non-trusted faces at t = 0..15 the countdown reaches
exactly 0 ten face-ticks after the t = 5 escalation with the active flag
still true; the red state survives any number of subsequent no-face ticks
unchanged; and the active flag is cleared by `clear_alarm` or by a trusted
recognition. -/
theorem C2_countdown_amended :
    (∀ (s : ModeManager) (v : Observation) (now : Int) (dir : Dir),
      s.current_mode = some RobotMode.SURVEILLANCE →
      s.detection_pause_until ≤ now →
      s.surveillance_intruder_detected = true →
      s.surveillance_yellow_warning = false →
      0 < s.surveillance_countdown →
      v.face_detected = true →
      isTrusted v.recognized_person = false →
      (update s v now dir).1.surveillance_countdown = s.surveillance_countdown - 1 ∧
      (update s v now dir).2.2 =
        [TelemetryEvent.alarmCountdown (v.confidence.getD 0)
          (s.surveillance_countdown - 1)] ∧
      (update s v now dir).1.alarm_active = s.alarm_active ∧
      (update s v now dir).1.surveillance_intruder_detected = true) ∧
    (run_surveillance surv0
      (facesTrace [0, 1, 2, 3, 4, 5, 6, 7, 8, 9, 10, 11, 12, 13, 14, 15])).surveillance_countdown = 0 ∧
    (run_surveillance surv0
      (facesTrace [0, 1, 2, 3, 4, 5, 6, 7, 8, 9, 10, 11, 12, 13, 14, 15])).alarm_active = true ∧
    (∀ (s : ModeManager) (ts : List Int),
      s.current_mode = some RobotMode.SURVEILLANCE →
      s.surveillance_intruder_detected = true →
      s.alarm_active = true →
      run_surveillance s (noFaceTrace ts) = s) ∧
    (∀ s : ModeManager, (clear_alarm s).1.alarm_active = false) ∧
    (∀ (s : ModeManager) (v : Observation) (now : Int) (dir : Dir),
      s.current_mode = some RobotMode.SURVEILLANCE →
      s.detection_pause_until ≤ now →
      v.face_detected = true →
      isTrusted v.recognized_person = true →
      (update s v now dir).1.alarm_active = false) := by
  refine ⟨?_, by decide, by decide, ?_, fun s => rfl, ?_⟩
  · intro s v now dir hm hp hi hy hc hf ht
    rw [update_surv_eq v now dir hm]
    unfold update_surveillance
    have h1 : ¬ now < s.detection_pause_until := not_lt.mpr hp
    simp [hf, ht, hy, hi, hc, h1]
  · intro s ts hm hi ha
    induction ts with
    | nil => rfl
    | cons t rest ih =>
        show run_surveillance (update s noFaceObs t Dir.forward).1 (noFaceTrace rest) = s
        rw [update_surv_noface noFaceObs t Dir.forward hm (by decide) (Or.inr ha)]
        exact ih
  · intro s v now dir hm hp hf ht
    rw [update_surv_trusted v now dir hm hp hf ht]

/-- Witness for C2's amended theorem: a face tick at t = 6 on `redS`
decrements the countdown to 9 and emits a countdown event; `redS` survives
two concrete no-face ticks; `clear_alarm` clears its active flag. -/
theorem C2_witness :
    (update redS unknownFaceObs 6 Dir.forward).1.surveillance_countdown =
      redS.surveillance_countdown - 1 ∧
    (update redS unknownFaceObs 6 Dir.forward).2.2 =
      [TelemetryEvent.alarmCountdown (unknownFaceObs.confidence.getD 0)
        (redS.surveillance_countdown - 1)] ∧
    run_surveillance redS (noFaceTrace [6, 7]) = redS ∧
    (clear_alarm redS).1.alarm_active = false ∧
    (update redS soniaObs 6 Dir.forward).1.alarm_active = false :=
  ⟨((C2_countdown_amended.1) redS unknownFaceObs 6 Dir.forward
      (by decide) (by decide) (by decide) (by decide) (by decide) (by decide) (by decide)).1,
   ((C2_countdown_amended.1) redS unknownFaceObs 6 Dir.forward
      (by decide) (by decide) (by decide) (by decide) (by decide) (by decide) (by decide)).2.1,
   (C2_countdown_amended.2.2.2.1) redS [6, 7] (by decide) (by decide) (by decide),
   (C2_countdown_amended.2.2.2.2.1) redS,
   (C2_countdown_amended.2.2.2.2.2) redS soniaObs 6 Dir.forward
      (by decide) (by decide) (by decide) (by decide)⟩

/-- The state reached by leaving surveillance (to MANUAL) while the alarm is
ringing and then re-entering SURVEILLANCE. -/
def c6_state : ModeManager :=
  (set_mode (set_mode redS RobotMode.MANUAL 20).1 RobotMode.SURVEILLANCE 21).1

/-- C6 counterexample: re-entering SURVEILLANCE via `set_mode` from the
red-alarm state left behind by the previous mode does NOT reset the alarm
sub-state to IDLE — the intruder flag, the active flag, and the countdown
all survive the transition. -/
theorem C6_counterexample :
    c6_state.current_mode = some RobotMode.SURVEILLANCE ∧
    alarmState c6_state = AlarmState.RED_ALARM ∧
    c6_state.alarm_active = true ∧
    c6_state.surveillance_countdown = 10 := by
  decide

/-- C6 (amended): entering SURVEILLANCE via `set_mode` from a different mode
enables face tracking, but leaves the alarm sub-state exactly as the
previous mode left it: the yellow-warning flag, the intruder flag, the
active flag, and the countdown are all unchanged. -/
theorem C6_enter_surveillance_amended (s : ModeManager) (now : Int)
    (h : s.current_mode ≠ some RobotMode.SURVEILLANCE) :
    (set_mode s RobotMode.SURVEILLANCE now).1.face_tracking_enabled = true ∧
    (set_mode s RobotMode.SURVEILLANCE now).1.current_mode =
      some RobotMode.SURVEILLANCE ∧
    (set_mode s RobotMode.SURVEILLANCE now).1.surveillance_yellow_warning =
      s.surveillance_yellow_warning ∧
    (set_mode s RobotMode.SURVEILLANCE now).1.surveillance_intruder_detected =
      s.surveillance_intruder_detected ∧
    (set_mode s RobotMode.SURVEILLANCE now).1.alarm_active = s.alarm_active ∧
    (set_mode s RobotMode.SURVEILLANCE now).1.surveillance_countdown =
      s.surveillance_countdown := by
  unfold set_mode
  cases hc : s.current_mode with
  | none => simp [hc, enter_mode]
  | some old =>
      rw [hc] at h
      cases old with
      | MANUAL => simp [hc, exit_mode, enter_mode]
      | PATROL => simp [hc, exit_mode, enter_mode]
      | SURVEILLANCE => exact absurd rfl h

/-- Witness for C6's amended theorem: re-entering SURVEILLANCE at t = 21
from the MANUAL-mode state that still carries the red alarm. -/
theorem C6_witness :
    (set_mode (set_mode redS RobotMode.MANUAL 20).1 RobotMode.SURVEILLANCE 21).1.face_tracking_enabled = true ∧
    (set_mode (set_mode redS RobotMode.MANUAL 20).1 RobotMode.SURVEILLANCE 21).1.current_mode =
      some RobotMode.SURVEILLANCE ∧
    (set_mode (set_mode redS RobotMode.MANUAL 20).1 RobotMode.SURVEILLANCE 21).1.surveillance_yellow_warning =
      (set_mode redS RobotMode.MANUAL 20).1.surveillance_yellow_warning ∧
    (set_mode (set_mode redS RobotMode.MANUAL 20).1 RobotMode.SURVEILLANCE 21).1.surveillance_intruder_detected =
      (set_mode redS RobotMode.MANUAL 20).1.surveillance_intruder_detected ∧
    (set_mode (set_mode redS RobotMode.MANUAL 20).1 RobotMode.SURVEILLANCE 21).1.alarm_active =
      (set_mode redS RobotMode.MANUAL 20).1.alarm_active ∧
    (set_mode (set_mode redS RobotMode.MANUAL 20).1 RobotMode.SURVEILLANCE 21).1.surveillance_countdown =
      (set_mode redS RobotMode.MANUAL 20).1.surveillance_countdown :=
  C6_enter_surveillance_amended (set_mode redS RobotMode.MANUAL 20).1 21 (by decide)

/-- C10: `set_patrol_active true` while the current mode is some mode other
than PATROL performs the full mode transition: the flag is set, the mode
becomes PATROL, and the requested intents are exactly the old mode's exit
intents (which include stop-all-motion) followed by the patrol entry
intents; `set_patrol_active false` changes only the flag and never changes
the mode — for every state whatsoever (PATROL mode and the initial no-mode
state included) it returns the input state with only the flag cleared and
requests no intents. -/
theorem C10_patrol_active_transition (s : ModeManager) (now : Int)
    (m : RobotMode) (hm : s.current_mode = some m)
    (hnp : m ≠ RobotMode.PATROL) :
    ((set_patrol_active s true now).1.patrol_active = true ∧
     (set_patrol_active s true now).1.current_mode = some RobotMode.PATROL ∧
     (set_patrol_active s true now).2 = (exit_mode s m).2 ++ patrolEntryIntents ∧
     Intent.stopAllMotion ∈ (set_patrol_active s true now).2) ∧
    (∀ (u : ModeManager) (t : Int),
      set_patrol_active u false t = ({ u with patrol_active := false }, [])) := by
  constructor
  · cases m with
    | PATROL => exact absurd rfl hnp
    | MANUAL =>
        unfold set_patrol_active set_mode
        simp [hm, exit_mode, enter_mode, patrolEntryIntents]
    | SURVEILLANCE =>
        unfold set_patrol_active set_mode
        simp [hm, exit_mode, enter_mode, patrolEntryIntents]
  · intro u t
    simp [set_patrol_active]

/-- A reachable PATROL-mode state with the patrol flag set. -/
def patrolS : ModeManager := (set_patrol_active redS true 30).1

/-- Witness for C10: the true-case at the reachable surveillance state
`redS`, and the false-case both there and at the reachable PATROL-mode
state `patrolS` (the production `stop_patrol` situation) — neither changes
the mode. -/
theorem C10_witness :
    (set_patrol_active redS true 30).1.patrol_active = true ∧
    (set_patrol_active redS true 30).1.current_mode = some RobotMode.PATROL ∧
    (set_patrol_active redS true 30).2 =
      (exit_mode redS RobotMode.SURVEILLANCE).2 ++ patrolEntryIntents ∧
    Intent.stopAllMotion ∈ (set_patrol_active redS true 30).2 ∧
    set_patrol_active redS false 30 = ({ redS with patrol_active := false }, []) ∧
    set_patrol_active patrolS false 31 = ({ patrolS with patrol_active := false }, []) ∧
    set_patrol_active initial_state false 0 =
      ({ initial_state with patrol_active := false }, []) :=
  have h := C10_patrol_active_transition redS 30 RobotMode.SURVEILLANCE
    (by decide) (by decide)
  ⟨h.1.1, h.1.2.1, h.1.2.2.1, h.1.2.2.2,
   h.2 redS 30, h.2 patrolS 31, h.2 initial_state 0⟩

/-- C7 counterexample: a `get_status` request carrying id "42" receives
exactly one reply, but that reply is a `status_update` carrying the freshly
generated id `"status_1000"`, not the request's id "42" — so "that reply
carries the same id as the request" fails for the `get_status` control-plane
type. -/
theorem C7_counterexample :
    handle_command [] 0 { type := "get_status", id := some "42" } 1000
        (Except.ok { success := true, message := "ok" }) =
      ([], [OutboundMsg.statusUpdate "status_1000"]) ∧
    outId (OutboundMsg.statusUpdate "status_1000") ≠ "42" := by
  decide

/-- C7 (amended): every inbound message carrying an id receives exactly one
reply; for every type except `get_status` (ping, start/stop video stream,
forwarded commands — whether the handler returns a result or raises — and
unknown types, which are forwarded too) the reply carries the request's id;
a `get_status` request's single reply instead carries the freshly generated
`status_<ms>` id. -/
theorem C7_reply_id_amended (video : List Nat) (client : Nat)
    (msg : InboundMsg) (nowMs : Int) (handler : Except String CommandResult)
    (i : String) (hid : msg.id = some i) :
    (handle_command video client msg nowMs handler).2.length = 1 ∧
    (msg.type ≠ "get_status" →
      (handle_command video client msg nowMs handler).2.map outId = [i]) ∧
    (msg.type = "get_status" →
      (handle_command video client msg nowMs handler).2.map outId =
        [statusMsgId nowMs]) := by
  unfold handle_command
  by_cases h1 : msg.type = "ping"
  · simp [h1, hid, outId]
  · by_cases h2 : msg.type = "get_status"
    · simp [h1, h2, outId]
    · by_cases h3 : msg.type = "start_video_stream"
      · simp [h1, h2, h3, hid, outId]
      · by_cases h4 : msg.type = "stop_video_stream"
        · simp [h1, h2, h3, h4, hid, outId]
        · cases handler with
          | ok r => simp [h1, h2, h3, h4, hid, outId]
          | error e => simp [h1, h2, h3, h4, hid, outId]

/-- Witness for C7's amended theorem: a ping carrying id "7" gets exactly
one pong carrying id "7". -/
theorem C7_witness :
    (handle_command [] 3 { type := "ping", id := some "7" } 0
        (Except.ok { success := true, message := "ok" })).2.length = 1 ∧
    (handle_command [] 3 { type := "ping", id := some "7" } 0
        (Except.ok { success := true, message := "ok" })).2.map outId = ["7"] :=
  ⟨(C7_reply_id_amended [] 3 { type := "ping", id := some "7" } 0
      (Except.ok { success := true, message := "ok" }) "7" rfl).1,
   (C7_reply_id_amended [] 3 { type := "ping", id := some "7" } 0
      (Except.ok { success := true, message := "ok" }) "7" rfl).2.1
     (by decide)⟩

/-- Send outcome used by the C8 counterexample: client 2's send fails with a
non-connection-closed error, all other sends succeed. -/
def c8_outcome : Nat → SendResult :=
  fun c => if c = 2 then SendResult.otherError else SendResult.ok

/-- C8 counterexample: broadcasting to clients [1, 2, 3] where client 2's
send fails with a generic (non-`ConnectionClosed`) error delivers to the
other clients but does NOT remove client 2 from either registry — it is
still present on the next broadcast, contradicting "a send failure
immediately removes that client from all subscription sets". -/
theorem C8_counterexample :
    broadcast_status { clients := [1, 2, 3], video_clients := [2] } c8_outcome =
      ({ clients := [1, 2, 3], video_clients := [2] }, [1, 3]) ∧
    (2 : Nat) ∈ (broadcast_status { clients := [1, 2, 3], video_clients := [2] }
      c8_outcome).1.clients := by
  decide

theorem broadcast_delivered (snapshot : List Nat) :
    ∀ (st : ServerState) (outcome : Nat → SendResult),
      (broadcast st snapshot outcome).2 =
        snapshot.filter fun c => decide (outcome c = SendResult.ok) := by
  induction snapshot with
  | nil => intro st o; rfl
  | cons c rest ih =>
      intro st o
      unfold broadcast
      cases ho : o c <;>
        simp [is_connection_closed, send_to_client, ho, ih, List.filter]

theorem broadcast_clients_mono (snapshot : List Nat) :
    ∀ (st : ServerState) (outcome : Nat → SendResult) (c : Nat),
      c ∈ (broadcast st snapshot outcome).1.clients → c ∈ st.clients := by
  induction snapshot with
  | nil => intro st o c h; exact h
  | cons a rest ih =>
      intro st o c h
      unfold broadcast at h
      simp [is_connection_closed] at h
      cases ho : o a
      · simp [send_to_client, ho] at h
        exact ih st o c h
      · simp [send_to_client, ho] at h
        have h2 := ih _ o c h
        simp [discardClient, List.mem_filter] at h2
        exact h2.1
      · simp [send_to_client, ho] at h
        exact ih st o c h

theorem broadcast_video_mono (snapshot : List Nat) :
    ∀ (st : ServerState) (outcome : Nat → SendResult) (c : Nat),
      c ∈ (broadcast st snapshot outcome).1.video_clients →
        c ∈ st.video_clients := by
  induction snapshot with
  | nil => intro st o c h; exact h
  | cons a rest ih =>
      intro st o c h
      unfold broadcast at h
      simp [is_connection_closed] at h
      cases ho : o a
      · simp [send_to_client, ho] at h
        exact ih st o c h
      · simp [send_to_client, ho] at h
        have h2 := ih _ o c h
        simp [discardClient, List.mem_filter] at h2
        exact h2.1
      · simp [send_to_client, ho] at h
        exact ih st o c h

theorem broadcast_removes_closed (snapshot : List Nat) :
    ∀ (st : ServerState) (outcome : Nat → SendResult) (k : Nat),
      k ∈ snapshot → outcome k = SendResult.connectionClosed →
      k ∉ (broadcast st snapshot outcome).1.clients ∧
      k ∉ (broadcast st snapshot outcome).1.video_clients := by
  induction snapshot with
  | nil => intro st o k hk _; exact absurd hk (List.not_mem_nil k)
  | cons a rest ih =>
      intro st o k hk hc
      unfold broadcast
      simp [is_connection_closed]
      by_cases hak : a = k
      · subst hak
        simp [send_to_client, hc]
        constructor
        · intro hmem
          have h2 := broadcast_clients_mono rest _ o a hmem
          simp [discardClient, List.mem_filter] at h2
        · intro hmem
          have h2 := broadcast_video_mono rest _ o a hmem
          simp [discardClient, List.mem_filter] at h2
      · have hkr : k ∈ rest := by
          rcases List.mem_cons.mp hk with h | h
          · exact absurd h.symm hak
          · exact h
        exact ih _ o k hkr hc

/-- C8 (amended): when broadcasting to the registered clients and the send
to client `k` fails with a `ConnectionClosed` error while every other send
succeeds, all other registered clients still receive the message and `k` is
removed from both the status-client registry and the video-client set (so it
is absent on the next broadcast); a send failure with any other error also
leaves the other deliveries intact but does not remove the client (see the
counterexample). -/
theorem C8_broadcast_amended (st : ServerState) (outcome : Nat → SendResult)
    (k : Nat) (hk : outcome k = SendResult.connectionClosed)
    (hmem : k ∈ st.clients)
    (hothers : ∀ c, c ≠ k → outcome c = SendResult.ok) :
    (∀ c, c ∈ st.clients → c ≠ k → c ∈ (broadcast_status st outcome).2) ∧
    k ∉ (broadcast_status st outcome).2 ∧
    k ∉ (broadcast_status st outcome).1.clients ∧
    k ∉ (broadcast_status st outcome).1.video_clients := by
  have hdel := broadcast_delivered st.clients st outcome
  have hrem := broadcast_removes_closed st.clients st outcome k hmem hk
  refine ⟨?_, ?_, hrem.1, hrem.2⟩
  · intro c hc hck
    rw [broadcast_status, hdel]
    simp [List.mem_filter, hc, hothers c hck]
  · rw [broadcast_status, hdel]
    simp [List.mem_filter, hk]

/-- Send outcome used by the C8 witness: client 2's connection is closed,
all other sends succeed. -/
def c8_closed_outcome : Nat → SendResult :=
  fun c => if c = 2 then SendResult.connectionClosed else SendResult.ok

/-- Witness for C8's amended theorem: clients [1, 2, 3] (2 also a video
client), client 2's connection closed — 1 and 3 are delivered, 2 is removed
from both registries. -/
theorem C8_witness :
    (1 : Nat) ∈ (broadcast_status { clients := [1, 2, 3], video_clients := [2, 3] }
      c8_closed_outcome).2 ∧
    (3 : Nat) ∈ (broadcast_status { clients := [1, 2, 3], video_clients := [2, 3] }
      c8_closed_outcome).2 ∧
    (2 : Nat) ∉ (broadcast_status { clients := [1, 2, 3], video_clients := [2, 3] }
      c8_closed_outcome).1.clients ∧
    (2 : Nat) ∉ (broadcast_status { clients := [1, 2, 3], video_clients := [2, 3] }
      c8_closed_outcome).1.video_clients :=
  have h := C8_broadcast_amended { clients := [1, 2, 3], video_clients := [2, 3] }
    c8_closed_outcome 2 (by decide) (by decide)
    (by
      intro c hc
      simp [c8_closed_outcome, hc])
  ⟨h.1 1 (by decide) (by decide), h.1 3 (by decide) (by decide),
   h.2.2.1, h.2.2.2⟩

end Maomao
